import Mathlib

/-!
Shallow embedding of the `scraped-listings` repository.

The repository contains two near-duplicate variants of a read-only pipeline:

* variant A: the route handler in `src/unnamed/part_000` (database
  `proptrust`, collection `listings`, with a field-remapping step producing a
  `fields`/`taxonomies` envelope) paired with the client view in
  `src/components/property-listings.tsx`;
* variant B: the route handler in `src/unnamed/part_001` (database
  `ccube_research`, collection `apartment`, raw documents passed through)
  paired with the client view in `src/unnamed/part_002`.

JavaScript conventions are embedded explicitly:

* a possibly-absent string field is a `JStr` (`absent` is `undefined`);
  the idiom `x || d` substitutes `d` for `undefined` and for the empty
  string, both falsy;
* a possibly-absent numeric field of variant B is a `JVal`: a plain number,
  a Mongo extended-JSON wrapper object (`\x7b$numberInt: "..."\x7d` or
  `\x7b$numberDouble: "..."\x7d`) modelled by the numeric value its digit
  string parses to, some other non-numeric value, or absent;
* the external world of the handler (the MongoDB driver) is an oracle
  `Driver`: constructing a client from a connection string either succeeds
  or throws with a message, `connect()` either succeeds or throws, and the
  `find(\x7b\x7d).limit(500).toArray()` query either throws or returns the first
  500 documents of the collection, modelled as `List.take 500` of the
  collection contents.

Numbers are modelled as integers; the floating-point latitude/longitude
results of variant A are kept symbolic (`ParsedNum`), recording that
`parseFloat` was applied to the stored string, since no claim computes with
them.
-/

/-- A possibly-absent string-valued document field (`absent` = `undefined`). -/
inductive JStr where
  | absent
  | str (s : String)
deriving DecidableEq, Repr

/-- JavaScript `x || d` on a possibly-absent string: `undefined` and the
empty string are falsy and replaced by the default. -/
def jsOr : JStr → String → String
  | JStr.absent, d => d
  | JStr.str s, d => if s = "" then d else s

/-- A possibly-absent numeric-valued document field of the variant-B schema:
a plain number, an extended-JSON wrapper (`$numberInt`/`$numberDouble`)
carrying the value its digit string parses to, some other value, or absent. -/
inductive JVal where
  | absent
  | num (n : Int)
  | boxed (n : Int)
  | other
deriving DecidableEq, Repr

/-- The variant-B numeric normalization (part_002 lines 66-100):
`doc[k]?.$numberInt ? parseInt(...) : typeof doc[k] === "number" ? doc[k] : 0`
(and the same shape with `$numberDouble`/`parseFloat`). -/
def jsNumOrZero : JVal → Int
  | JVal.boxed n => n
  | JVal.num n => n
  | _ => 0

/-- The `_id` value of a fetched document: either the extended-JSON object
`\x7b$oid: s\x7d` (as produced by the part_000 formatter from
`property._id.toHexString()`, a nonempty hex string) or a plain string. -/
inductive IdVal where
  | oidObj (oid : String)
  | plain (s : String)
deriving DecidableEq, Repr

/-- Client `_id` extraction: `doc._id?.$oid || doc._id` (tsx line 64 and
part_002 line 63). `toHexString()` output is nonempty, hence truthy. -/
def jsIdOf : IdVal → String
  | IdVal.oidObj s => s
  | IdVal.plain s => s

/-- Result of the variant-A latitude/longitude branch (tsx lines 72-73):
either `parseFloat` applied to the stored string, or the literal `0`. -/
inductive ParsedNum where
  | parseFloatOf (s : String)
  | zero
deriving DecidableEq, Repr

/-- Variant-A latitude/longitude normalization:
`doc.fields?.latitude ? parseFloat(doc.fields.latitude) : 0` — the guard is
JavaScript truthiness of the stored value, so `undefined` and `""` give 0. -/
def jsParseOrZero : JStr → ParsedNum
  | JStr.absent => ParsedNum.zero
  | JStr.str s => if s = "" then ParsedNum.zero else ParsedNum.parseFloatOf s

/-- JavaScript `haystack.includes(needle)`: substring containment. -/
def jsIncludes (s needle : String) : Bool :=
  decide (needle.data <:+: s.data)

/-- The incoming `NextRequest`. The handlers bind it but never read it. -/
structure NextRequest where
  url : String
  method : String
deriving DecidableEq, Repr

/-- Body of a `NextResponse.json` reply: either `\x7bdocuments: [...]\x7d` or
`\x7berror: msg\x7d`. -/
inductive RespBody (α : Type) where
  | documents (docs : List α)
  | error (msg : String)

/-- An HTTP response: status code plus JSON body. `NextResponse.json(x)`
defaults to status 200; the catch branch passes `\x7bstatus: 500\x7d`. -/
structure Response (α : Type) where
  status : Nat
  body : RespBody α

/-- Oracle for the MongoDB driver during one invocation: `new MongoClient u`
either succeeds or throws with a message; `client.connect()` likewise; the
`find(\x7b\x7d).limit(500).toArray()` call either throws (`queryErr = some m`) or
returns the first 500 documents of the collection. -/
structure Driver where
  mkClient : String → Except String Unit
  connect : Except String Unit
  queryErr : Option String

/-- `const uri = process.env.MONGODB_URI + "&ssl=false"` (part_000 line 4).
JavaScript string concatenation stringifies `undefined` to `"undefined"`,
so an absent variable yields the nonempty string `"undefined&ssl=false"`. -/
def uri_v0 (env : Option String) : String :=
  (match env with
   | some s => s
   | none => "undefined") ++ "&ssl=false"

/-- `getMongoClient` of part_000 (lines 8-20): return the cached client if
present; otherwise throw if `uri` is falsy (the empty string), else construct
a client and cache it. The returned Bool is the cached-client state after the
call (`cachedClient = client` runs only if construction did not throw). -/
def getMongoClient_v0 (d : Driver) (env : Option String) (cached : Bool) :
    Except String Unit × Bool :=
  if cached then (Except.ok (), true)
  else
    if uri_v0 env = "" then
      (Except.error "MONGODB_URI environment variable not configured", false)
    else
      match d.mkClient (uri_v0 env) with
      | Except.error m => (Except.error m, false)
      | Except.ok _ => (Except.ok (), true)

/-- `getMongoClient` of part_001 (lines 8-20): identical except
`const uri = process.env.MONGODB_URI` (line 4), so `!uri` holds exactly when
the variable is absent or empty. -/
def getMongoClient_v1 (d : Driver) (env : Option String) (cached : Bool) :
    Except String Unit × Bool :=
  if cached then (Except.ok (), true)
  else
    match env with
    | none => (Except.error "MONGODB_URI environment variable not configured", false)
    | some s =>
      if s = "" then
        (Except.error "MONGODB_URI environment variable not configured", false)
      else
        match d.mkClient s with
        | Except.error m => (Except.error m, false)
        | Except.ok _ => (Except.ok (), true)

/-- A raw document of the `listings` collection, carrying exactly the fields
the part_000 formatter reads (lines 32-64). `oid` is the hex rendering of the
Mongo `_id`; every other field is optional scraped data. -/
structure RawDocA where
  oid : String
  title : JStr
  author_id : JStr
  meta_description : JStr
  project_description : JStr
  price_sqft : JStr
  latitude : JStr
  longitude : JStr
  address : JStr
  project_highlights : JStr
  rera_url : JStr
  rera_id : JStr
  about_project : JStr
  nearest_school : JStr
  nearest_bank : JStr
  nearest_hospital : JStr
  starting_bsp : JStr
  project_detail : JStr
  listing_url : JStr
  photo_url : JStr
  amenities : Option (List String)
  at_biz_dir_category : Option (List String)
  at_biz_dir_location : Option (List String)
  at_biz_dir_tags : Option (List String)
  scraped_at : JStr
deriving DecidableEq, Repr

/-- The `fields` envelope of a formatted variant-A document. The client
accesses it through optional chaining, so each member may be absent. -/
structure FieldsA where
  price_sqft : JStr
  latitude : JStr
  longitude : JStr
  address : JStr
  project_highlights : JStr
  rera_url : JStr
  rera_id : JStr
  about_project : JStr
  nearest_school : JStr
  nearest_bank : JStr
  nearest_hospital : JStr
  starting_bsp : JStr
  project_detail : JStr
  listing_url : JStr
  photo_url : JStr
  amenities : Option (List String)
deriving DecidableEq, Repr

/-- The `taxonomies` envelope: keys `at_biz_dir-category`,
`at_biz_dir-location`, `at_biz_dir-tags` (hyphens not allowed in Lean
identifiers). -/
structure TaxA where
  category : Option (List String)
  location : Option (List String)
  tags : Option (List String)
deriving DecidableEq, Repr

/-- A variant-A response document as the tsx client sees it: the shape
produced by part_000 lines 32-64, with the envelopes optional because the
client guards them with `?.`. -/
structure DocA where
  _id : IdVal
  title : JStr
  author_id : JStr
  meta_description : JStr
  project_description : JStr
  fields : Option FieldsA
  taxonomies : Option TaxA
  scraped_at : JStr
deriving DecidableEq, Repr

/-- The part_000 per-document formatting step (lines 32-64): wrap `_id` as
`\x7b$oid: hex\x7d`, copy the flat fields, group the detail fields under `fields`
with `amenities: property.amenities || []`, and group the three taxonomy
arrays under `taxonomies`, each defaulted to `[]`. -/
def formatProperty (p : RawDocA) : DocA :=
  { _id := IdVal.oidObj p.oid
  , title := p.title
  , author_id := p.author_id
  , meta_description := p.meta_description
  , project_description := p.project_description
  , fields := some
      { price_sqft := p.price_sqft
      , latitude := p.latitude
      , longitude := p.longitude
      , address := p.address
      , project_highlights := p.project_highlights
      , rera_url := p.rera_url
      , rera_id := p.rera_id
      , about_project := p.about_project
      , nearest_school := p.nearest_school
      , nearest_bank := p.nearest_bank
      , nearest_hospital := p.nearest_hospital
      , starting_bsp := p.starting_bsp
      , project_detail := p.project_detail
      , listing_url := p.listing_url
      , photo_url := p.photo_url
      , amenities := some (p.amenities.getD []) }
  , taxonomies := some
      { category := some (p.at_biz_dir_category.getD [])
      , location := some (p.at_biz_dir_location.getD [])
      , tags := some (p.at_biz_dir_tags.getD []) }
  , scraped_at := p.scraped_at }

/-- A variant-B document of the `apartment` collection, carrying the fields
part_002 reads (lines 62-101); part_001 returns these documents unchanged.
Lean field names stand for the quoted keys ("Apartment Name", etc.). -/
structure DocB where
  _id : IdVal
  apartmentName : JStr
  location : JStr
  minimumPrice : JVal
  maximumPrice : JVal
  perSqftCost : JVal
  numberOfUnits : JVal
  totalArea : JStr
  projectStatus : JStr
  photoUrl : JStr
  listingUrl : JStr
  amenities : Option (List String)
  latitude : JVal
  longitude : JVal
deriving DecidableEq, Repr

/-- The `GET` handler of part_000 (lines 22-74): obtain a client, connect,
query `listings` with an empty filter capped at 500, format each document,
and reply 200; any thrown error is caught and becomes a 500 reply whose body
carries the error message. The second component is the cached-client state
after the call; `request` is bound but never read. -/
def GET_v0 (d : Driver) (env : Option String) (cached : Bool)
    (collection : List RawDocA) (request : NextRequest) :
    Response DocA × Bool :=
  match getMongoClient_v0 d env cached with
  | (Except.error m, c) => (⟨500, RespBody.error m⟩, c)
  | (Except.ok _, c) =>
    match d.connect with
    | Except.error m => (⟨500, RespBody.error m⟩, c)
    | Except.ok _ =>
      match d.queryErr with
      | some m => (⟨500, RespBody.error m⟩, c)
      | none =>
        (⟨200, RespBody.documents ((collection.take 500).map formatProperty)⟩, c)

/-- The `GET` handler of part_001 (lines 22-40): same pipeline against the
`apartment` collection, with the raw documents returned unformatted. -/
def GET_v1 (d : Driver) (env : Option String) (cached : Bool)
    (collection : List DocB) (request : NextRequest) :
    Response DocB × Bool :=
  match getMongoClient_v1 d env cached with
  | (Except.error m, c) => (⟨500, RespBody.error m⟩, c)
  | (Except.ok _, c) =>
    match d.connect with
    | Except.error m => (⟨500, RespBody.error m⟩, c)
    | Except.ok _ =>
      match d.queryErr with
      | some m => (⟨500, RespBody.error m⟩, c)
      | none =>
        (⟨200, RespBody.documents (collection.take 500)⟩, c)

/-- The variant-A view-model record (property-listings.tsx lines 7-23). -/
structure PropertyA where
  _id : String
  title : String
  location : String
  price : String
  priceSqft : String
  photoUrl : String
  listingUrl : String
  amenities : List String
  latitude : ParsedNum
  longitude : ParsedNum
  address : String
  category : String
  tags : List String
  projectHighlights : String
  reraId : String
deriving DecidableEq, Repr

/-- The variant-B view-model record (part_002 lines 7-22). Lean field names
stand for the quoted keys ("Apartment Name", "Minimum Price", etc.). -/
structure PropertyB where
  _id : String
  apartmentName : String
  location : String
  minimumPrice : Int
  maximumPrice : Int
  perSqftCost : Int
  numberOfUnits : Int
  totalArea : String
  projectStatus : String
  photoUrl : String
  listingUrl : String
  amenities : List String
  latitude : Int
  longitude : Int
deriving DecidableEq, Repr

/-- Optional-chained access `doc.fields?.<sel>` on a variant-A document. -/
def optField (doc : DocA) (sel : FieldsA → JStr) : JStr :=
  match doc.fields with
  | none => JStr.absent
  | some f => sel f

/-- `arr?.[0] || dflt` on an optional string array: absent array, empty
array, and empty-string head are all falsy and give the default. -/
def jsHeadOr (l : Option (List String)) (dflt : String) : String :=
  match l with
  | none => dflt
  | some xs =>
    match xs.head? with
    | none => dflt
    | some s => if s = "" then dflt else s

/-- The tsx per-document view-model mapping (property-listings.tsx lines
63-79), one field per source line, with the `?.`/`||` defaults embedded. -/
def processDoc_A (doc : DocA) : PropertyA :=
  { _id := jsIdOf doc._id
  , title := jsOr doc.title "Unknown"
  , location := jsHeadOr (doc.taxonomies.bind TaxA.location) "Unknown"
  , price := jsOr (optField doc FieldsA.starting_bsp) "N/A"
  , priceSqft := jsOr (optField doc FieldsA.price_sqft) "N/A"
  , photoUrl := jsOr (optField doc FieldsA.photo_url) ""
  , listingUrl := jsOr (optField doc FieldsA.listing_url) "#"
  , amenities := (doc.fields.bind FieldsA.amenities).getD []
  , latitude := jsParseOrZero (optField doc FieldsA.latitude)
  , longitude := jsParseOrZero (optField doc FieldsA.longitude)
  , address := jsOr (optField doc FieldsA.address) "N/A"
  , category := jsHeadOr (doc.taxonomies.bind TaxA.category) "Unknown"
  , tags := (doc.taxonomies.bind TaxA.tags).getD []
  , projectHighlights := jsOr (optField doc FieldsA.project_highlights) "N/A"
  , reraId := jsOr (optField doc FieldsA.rera_id) "N/A" }

/-- The part_002 per-document view-model mapping (lines 62-101). -/
def processDoc_B (doc : DocB) : PropertyB :=
  { _id := jsIdOf doc._id
  , apartmentName := jsOr doc.apartmentName "Unknown"
  , location := jsOr doc.location "Unknown"
  , minimumPrice := jsNumOrZero doc.minimumPrice
  , maximumPrice := jsNumOrZero doc.maximumPrice
  , perSqftCost := jsNumOrZero doc.perSqftCost
  , numberOfUnits := jsNumOrZero doc.numberOfUnits
  , totalArea := jsOr doc.totalArea "N/A"
  , projectStatus := jsOr doc.projectStatus "Unknown"
  , photoUrl := jsOr doc.photoUrl ""
  , listingUrl := jsOr doc.listingUrl "#"
  , amenities := doc.amenities.getD []
  , latitude := jsNumOrZero doc.latitude
  , longitude := jsNumOrZero doc.longitude }

/-- `filterProperties` of property-listings.tsx (lines 91-106): keep the
records whose lowercased title, location or address contains the lowercased
search term, whose category equals the selected one unless it is "all", and
whose tag list contains the selected tag unless it is "all". -/
def filterProperties_A (searchTerm categoryFilter tagFilter : String)
    (properties : List PropertyA) : List PropertyA :=
  properties.filter fun property =>
    (jsIncludes property.title.toLower searchTerm.toLower ||
     jsIncludes property.location.toLower searchTerm.toLower ||
     jsIncludes property.address.toLower searchTerm.toLower) &&
    (categoryFilter == "all" || property.category == categoryFilter) &&
    (tagFilter == "all" || property.tags.contains tagFilter)

/-- `filterProperties` of part_002 (lines 113-128): keep the records whose
lowercased name or location contains the lowercased search term, whose
project status equals the selected one unless it is "all", and whose minimum
price lies in the selected inclusive range. -/
def filterProperties_B (searchTerm statusFilter : String)
    (priceRange : Int × Int) (properties : List PropertyB) : List PropertyB :=
  properties.filter fun property =>
    (jsIncludes property.apartmentName.toLower searchTerm.toLower ||
     jsIncludes property.location.toLower searchTerm.toLower) &&
    (statusFilter == "all" || property.projectStatus == statusFilter) &&
    (decide (priceRange.1 ≤ property.minimumPrice) &&
     decide (property.minimumPrice ≤ priceRange.2))

/-- The empty-state decision of both views (tsx line 215, part_002 line 254):
`filteredProperties.length === 0` selects the "No properties found" message
instead of the card grid. -/
def rendersEmptyState {α : Type} (filteredProperties : List α) : Bool :=
  filteredProperties.length == 0

/-- Every part_000 handler run either succeeds with the formatted first 500
collection documents or fails with a 500 carrying some message. -/
theorem GET_v0_shape (d : Driver) (env : Option String) (c : Bool)
    (coll : List RawDocA) (req : NextRequest) :
    (GET_v0 d env c coll req).1 =
      ⟨200, RespBody.documents ((coll.take 500).map formatProperty)⟩ ∨
    ∃ m, (GET_v0 d env c coll req).1 = ⟨500, RespBody.error m⟩ := by
  unfold GET_v0
  rcases hG : getMongoClient_v0 d env c with ⟨r, c1⟩
  cases r with
  | error m => exact Or.inr ⟨m, rfl⟩
  | ok u =>
    cases hC : d.connect with
    | error m => exact Or.inr ⟨m, rfl⟩
    | ok v =>
      cases hQ : d.queryErr with
      | some m => exact Or.inr ⟨m, rfl⟩
      | none => exact Or.inl rfl

/-- Every part_001 handler run either succeeds with the first 500 collection
documents or fails with a 500 carrying some message. -/
theorem GET_v1_shape (d : Driver) (env : Option String) (c : Bool)
    (coll : List DocB) (req : NextRequest) :
    (GET_v1 d env c coll req).1 = ⟨200, RespBody.documents (coll.take 500)⟩ ∨
    ∃ m, (GET_v1 d env c coll req).1 = ⟨500, RespBody.error m⟩ := by
  unfold GET_v1
  rcases hG : getMongoClient_v1 d env c with ⟨r, c1⟩
  cases r with
  | error m => exact Or.inr ⟨m, rfl⟩
  | ok u =>
    cases hC : d.connect with
    | error m => exact Or.inr ⟨m, rfl⟩
    | ok v =>
      cases hQ : d.queryErr with
      | some m => exact Or.inr ⟨m, rfl⟩
      | none => exact Or.inl rfl

/-- Filtering a list twice by the same Boolean predicate equals filtering
once. -/
theorem filter_idem {α : Type} (p : α → Bool) (l : List α) :
    (l.filter p).filter p = l.filter p := by
  induction l with
  | nil => rfl
  | cons a t ih =>
    cases hpa : p a <;> simp [List.filter_cons, hpa, ih]

/-- A driver oracle for which every step succeeds. -/
def okDriver : Driver :=
  ⟨fun _ => Except.ok (), Except.ok (), none⟩

/-- A concrete incoming request. -/
def req0 : NextRequest :=
  ⟨"/api/properties", "GET"⟩

/-- Claim C1: every status-200 response of either GET handler carries a
documents array of length at most 500, and the client view-model list built
from that array by the corresponding mapping has at most 500 records. -/
theorem spec_C1 :
    (∀ (d : Driver) (env : Option String) (c : Bool) (coll : List RawDocA)
       (req : NextRequest) (docs : List DocA),
       (GET_v0 d env c coll req).1 = ⟨200, RespBody.documents docs⟩ →
       docs.length ≤ 500 ∧ (docs.map processDoc_A).length ≤ 500) ∧
    (∀ (d : Driver) (env : Option String) (c : Bool) (coll : List DocB)
       (req : NextRequest) (docs : List DocB),
       (GET_v1 d env c coll req).1 = ⟨200, RespBody.documents docs⟩ →
       docs.length ≤ 500 ∧ (docs.map processDoc_B).length ≤ 500) := by
  constructor
  · intro d env c coll req docs h
    rcases GET_v0_shape d env c coll req with h200 | ⟨m, h500⟩
    · rw [h] at h200
      simp only [Response.mk.injEq, RespBody.documents.injEq, true_and] at h200
      subst h200
      refine ⟨?_, ?_⟩ <;> simp [List.length_take]
    · rw [h] at h500
      simp at h500
  · intro d env c coll req docs h
    rcases GET_v1_shape d env c coll req with h200 | ⟨m, h500⟩
    · rw [h] at h200
      simp only [Response.mk.injEq, RespBody.documents.injEq, true_and] at h200
      subst h200
      refine ⟨?_, ?_⟩ <;> simp [List.length_take]
    · rw [h] at h500
      simp at h500

/-- Witness for C1 at a concrete invocation: a successful run over an empty
collection yields a 200 response whose documents satisfy both bounds. -/
theorem spec_C1_witness :
    ((GET_v0 okDriver (some "mongodb://localhost") false [] req0).1 =
       ⟨200, RespBody.documents ([] : List DocA)⟩) ∧
    (([] : List DocA).length ≤ 500 ∧
     (([] : List DocA).map processDoc_A).length ≤ 500) :=
  ⟨rfl, spec_C1.1 okDriver (some "mongodb://localhost") false [] req0 [] rfl⟩

/-- Claim C2: every invocation of either GET handler replies either with
status 200 and a documents body, or with status 500 and a string error body;
no other status or body shape occurs. -/
theorem spec_C2 :
    (∀ (d : Driver) (env : Option String) (c : Bool) (coll : List RawDocA)
       (req : NextRequest),
       (∃ docs, (GET_v0 d env c coll req).1 = ⟨200, RespBody.documents docs⟩) ∨
       (∃ m, (GET_v0 d env c coll req).1 = ⟨500, RespBody.error m⟩)) ∧
    (∀ (d : Driver) (env : Option String) (c : Bool) (coll : List DocB)
       (req : NextRequest),
       (∃ docs, (GET_v1 d env c coll req).1 = ⟨200, RespBody.documents docs⟩) ∨
       (∃ m, (GET_v1 d env c coll req).1 = ⟨500, RespBody.error m⟩)) := by
  constructor
  · intro d env c coll req
    rcases GET_v0_shape d env c coll req with h | h
    · exact Or.inl ⟨_, h⟩
    · exact Or.inr h
  · intro d env c coll req
    rcases GET_v1_shape d env c coll req with h | h
    · exact Or.inl ⟨_, h⟩
    · exact Or.inr h

/-- Claim C5: applying either filtering function twice with the same control
state yields the same list as applying it once. -/
theorem spec_C5 :
    (∀ (searchTerm categoryFilter tagFilter : String) (l : List PropertyA),
       filterProperties_A searchTerm categoryFilter tagFilter
           (filterProperties_A searchTerm categoryFilter tagFilter l) =
         filterProperties_A searchTerm categoryFilter tagFilter l) ∧
    (∀ (searchTerm statusFilter : String) (priceRange : Int × Int)
       (l : List PropertyB),
       filterProperties_B searchTerm statusFilter priceRange
           (filterProperties_B searchTerm statusFilter priceRange l) =
         filterProperties_B searchTerm statusFilter priceRange l) :=
  ⟨fun _ _ _ l => filter_idem _ l, fun _ _ _ l => filter_idem _ l⟩

/-- Claim C9: neither GET handler reads the incoming request, so two
invocations against the same environment, cached-client state, driver
behaviour and collection produce identical results for arbitrary requests. -/
theorem spec_C9 :
    (∀ (d : Driver) (env : Option String) (c : Bool) (coll : List RawDocA)
       (req1 req2 : NextRequest),
       GET_v0 d env c coll req1 = GET_v0 d env c coll req2) ∧
    (∀ (d : Driver) (env : Option String) (c : Bool) (coll : List DocB)
       (req1 req2 : NextRequest),
       GET_v1 d env c coll req1 = GET_v1 d env c coll req2) :=
  ⟨fun _ _ _ _ _ _ => rfl, fun _ _ _ _ _ _ => rfl⟩

/-- Claim C10: both filtering functions return an order-preserving sublist of
the stored list — every kept record occurs in the input, order is preserved,
and nothing is duplicated or synthesized. -/
theorem spec_C10 :
    (∀ (searchTerm categoryFilter tagFilter : String) (l : List PropertyA),
       (filterProperties_A searchTerm categoryFilter tagFilter l).Sublist l) ∧
    (∀ (searchTerm statusFilter : String) (priceRange : Int × Int)
       (l : List PropertyB),
       (filterProperties_B searchTerm statusFilter priceRange l).Sublist l) :=
  ⟨fun _ _ _ l => List.filter_sublist l, fun _ _ _ l => List.filter_sublist l⟩

/-- Claim C6: membership in either filtered projection is characterized
record by record: a record is kept exactly when it is in the stored list and
satisfies the case-insensitive containment of the search term in its
name/location(/address) fields, equality with the selected category (or
status) unless that selection is "all", membership of the selected tag in
its tag list unless that selection is "all" (variant A), and its minimum
price lying in the selected inclusive range (variant B). -/
theorem spec_C6 :
    (∀ (searchTerm categoryFilter tagFilter : String) (l : List PropertyA)
       (p : PropertyA),
       p ∈ filterProperties_A searchTerm categoryFilter tagFilter l ↔
         p ∈ l ∧
         (searchTerm.toLower.data <:+: p.title.toLower.data ∨
          searchTerm.toLower.data <:+: p.location.toLower.data ∨
          searchTerm.toLower.data <:+: p.address.toLower.data) ∧
         (categoryFilter = "all" ∨ p.category = categoryFilter) ∧
         (tagFilter = "all" ∨ tagFilter ∈ p.tags)) ∧
    (∀ (searchTerm statusFilter : String) (priceRange : Int × Int)
       (l : List PropertyB) (p : PropertyB),
       p ∈ filterProperties_B searchTerm statusFilter priceRange l ↔
         p ∈ l ∧
         (searchTerm.toLower.data <:+: p.apartmentName.toLower.data ∨
          searchTerm.toLower.data <:+: p.location.toLower.data) ∧
         (statusFilter = "all" ∨ p.projectStatus = statusFilter) ∧
         (priceRange.1 ≤ p.minimumPrice ∧ p.minimumPrice ≤ priceRange.2)) := by
  constructor
  · intro searchTerm categoryFilter tagFilter l p
    simp [filterProperties_A, List.mem_filter, jsIncludes, and_assoc, or_assoc]
  · intro searchTerm statusFilter priceRange l p
    simp [filterProperties_B, List.mem_filter, jsIncludes, and_assoc]

/-- A `fields` envelope in which every member is absent. -/
def emptyFieldsA : FieldsA :=
  { price_sqft := JStr.absent, latitude := JStr.absent, longitude := JStr.absent
  , address := JStr.absent, project_highlights := JStr.absent
  , rera_url := JStr.absent, rera_id := JStr.absent, about_project := JStr.absent
  , nearest_school := JStr.absent, nearest_bank := JStr.absent
  , nearest_hospital := JStr.absent, starting_bsp := JStr.absent
  , project_detail := JStr.absent, listing_url := JStr.absent
  , photo_url := JStr.absent, amenities := none }

/-- A `taxonomies` envelope in which every member is absent. -/
def emptyTaxA : TaxA :=
  { category := none, location := none, tags := none }

/-- A variant-A response document with identifier `i` and every optional
field absent, the envelopes included. -/
def absentDocA (i : IdVal) : DocA :=
  { _id := i, title := JStr.absent, author_id := JStr.absent
  , meta_description := JStr.absent, project_description := JStr.absent
  , fields := none, taxonomies := none, scraped_at := JStr.absent }

/-- A variant-A response document with identifier `i`, both envelopes
present, and every field inside them absent. -/
def absentEnvDocA (i : IdVal) : DocA :=
  { _id := i, title := JStr.absent, author_id := JStr.absent
  , meta_description := JStr.absent, project_description := JStr.absent
  , fields := some emptyFieldsA, taxonomies := some emptyTaxA
  , scraped_at := JStr.absent }

/-- A variant-B document with identifier `i` and every optional field
absent. -/
def absentDocB (i : IdVal) : DocB :=
  { _id := i, apartmentName := JStr.absent, location := JStr.absent
  , minimumPrice := JVal.absent, maximumPrice := JVal.absent
  , perSqftCost := JVal.absent, numberOfUnits := JVal.absent
  , totalArea := JStr.absent, projectStatus := JStr.absent
  , photoUrl := JStr.absent, listingUrl := JStr.absent, amenities := none
  , latitude := JVal.absent, longitude := JVal.absent }

/-- The variant-A view-model record made entirely of the mapping's default
values. -/
def defaultPropertyA (s : String) : PropertyA :=
  { _id := s, title := "Unknown", location := "Unknown", price := "N/A"
  , priceSqft := "N/A", photoUrl := "", listingUrl := "#", amenities := []
  , latitude := ParsedNum.zero, longitude := ParsedNum.zero, address := "N/A"
  , category := "Unknown", tags := [], projectHighlights := "N/A"
  , reraId := "N/A" }

/-- The variant-B view-model record made entirely of the mapping's default
values. -/
def defaultPropertyB (s : String) : PropertyB :=
  { _id := s, apartmentName := "Unknown", location := "Unknown"
  , minimumPrice := 0, maximumPrice := 0, perSqftCost := 0, numberOfUnits := 0
  , totalArea := "N/A", projectStatus := "Unknown", photoUrl := ""
  , listingUrl := "#", amenities := [], latitude := 0, longitude := 0 }

/-- Claim C4: both view-model mappings are total, and for every document and
every optional field, absence of that field — for variant A whether because
the envelope is missing or because the member inside it is — makes the
corresponding view-model field its default value ("Unknown", "N/A", "", "#",
the empty list, 0); moreover a document with every optional field absent maps
to the complete record of defaults. -/
theorem spec_C4 :
    (∀ d : DocA,
       (d.title = JStr.absent → (processDoc_A d).title = "Unknown") ∧
       (d.taxonomies.bind TaxA.location = none → (processDoc_A d).location = "Unknown") ∧
       (optField d FieldsA.starting_bsp = JStr.absent → (processDoc_A d).price = "N/A") ∧
       (optField d FieldsA.price_sqft = JStr.absent → (processDoc_A d).priceSqft = "N/A") ∧
       (optField d FieldsA.photo_url = JStr.absent → (processDoc_A d).photoUrl = "") ∧
       (optField d FieldsA.listing_url = JStr.absent → (processDoc_A d).listingUrl = "#") ∧
       (d.fields.bind FieldsA.amenities = none → (processDoc_A d).amenities = []) ∧
       (optField d FieldsA.latitude = JStr.absent → (processDoc_A d).latitude = ParsedNum.zero) ∧
       (optField d FieldsA.longitude = JStr.absent → (processDoc_A d).longitude = ParsedNum.zero) ∧
       (optField d FieldsA.address = JStr.absent → (processDoc_A d).address = "N/A") ∧
       (d.taxonomies.bind TaxA.category = none → (processDoc_A d).category = "Unknown") ∧
       (d.taxonomies.bind TaxA.tags = none → (processDoc_A d).tags = []) ∧
       (optField d FieldsA.project_highlights = JStr.absent → (processDoc_A d).projectHighlights = "N/A") ∧
       (optField d FieldsA.rera_id = JStr.absent → (processDoc_A d).reraId = "N/A")) ∧
    (∀ d : DocB,
       (d.apartmentName = JStr.absent → (processDoc_B d).apartmentName = "Unknown") ∧
       (d.location = JStr.absent → (processDoc_B d).location = "Unknown") ∧
       (d.minimumPrice = JVal.absent → (processDoc_B d).minimumPrice = 0) ∧
       (d.maximumPrice = JVal.absent → (processDoc_B d).maximumPrice = 0) ∧
       (d.perSqftCost = JVal.absent → (processDoc_B d).perSqftCost = 0) ∧
       (d.numberOfUnits = JVal.absent → (processDoc_B d).numberOfUnits = 0) ∧
       (d.totalArea = JStr.absent → (processDoc_B d).totalArea = "N/A") ∧
       (d.projectStatus = JStr.absent → (processDoc_B d).projectStatus = "Unknown") ∧
       (d.photoUrl = JStr.absent → (processDoc_B d).photoUrl = "") ∧
       (d.listingUrl = JStr.absent → (processDoc_B d).listingUrl = "#") ∧
       (d.amenities = none → (processDoc_B d).amenities = []) ∧
       (d.latitude = JVal.absent → (processDoc_B d).latitude = 0) ∧
       (d.longitude = JVal.absent → (processDoc_B d).longitude = 0)) ∧
    (∀ i : IdVal,
       processDoc_A (absentDocA i) = defaultPropertyA (jsIdOf i) ∧
       processDoc_A (absentEnvDocA i) = defaultPropertyA (jsIdOf i) ∧
       processDoc_B (absentDocB i) = defaultPropertyB (jsIdOf i)) := by
  refine ⟨fun d => ⟨?_, ?_, ?_, ?_, ?_, ?_, ?_, ?_, ?_, ?_, ?_, ?_, ?_, ?_⟩,
    fun d => ⟨?_, ?_, ?_, ?_, ?_, ?_, ?_, ?_, ?_, ?_, ?_, ?_, ?_⟩,
    fun i => ⟨rfl, rfl, rfl⟩⟩ <;>
    intro h <;>
    simp [processDoc_A, processDoc_B, jsOr, jsHeadOr, jsParseOrZero, jsNumOrZero, h]

/-- Witness for C4: every per-absent-field implication of `spec_C4`
instantiated at concrete documents, the variant-A conjuncts both at a
document without envelopes and (for two fields) at one whose envelopes are
present but empty. -/
theorem spec_C4_witness :
    (processDoc_A (absentDocA (IdVal.plain "w"))).title = "Unknown" ∧
    (processDoc_A (absentDocA (IdVal.plain "w"))).location = "Unknown" ∧
    (processDoc_A (absentDocA (IdVal.plain "w"))).price = "N/A" ∧
    (processDoc_A (absentDocA (IdVal.plain "w"))).priceSqft = "N/A" ∧
    (processDoc_A (absentDocA (IdVal.plain "w"))).photoUrl = "" ∧
    (processDoc_A (absentDocA (IdVal.plain "w"))).listingUrl = "#" ∧
    (processDoc_A (absentDocA (IdVal.plain "w"))).amenities = [] ∧
    (processDoc_A (absentDocA (IdVal.plain "w"))).latitude = ParsedNum.zero ∧
    (processDoc_A (absentDocA (IdVal.plain "w"))).longitude = ParsedNum.zero ∧
    (processDoc_A (absentDocA (IdVal.plain "w"))).address = "N/A" ∧
    (processDoc_A (absentDocA (IdVal.plain "w"))).category = "Unknown" ∧
    (processDoc_A (absentDocA (IdVal.plain "w"))).tags = [] ∧
    (processDoc_A (absentDocA (IdVal.plain "w"))).projectHighlights = "N/A" ∧
    (processDoc_A (absentDocA (IdVal.plain "w"))).reraId = "N/A" ∧
    (processDoc_B (absentDocB (IdVal.plain "w"))).apartmentName = "Unknown" ∧
    (processDoc_B (absentDocB (IdVal.plain "w"))).location = "Unknown" ∧
    (processDoc_B (absentDocB (IdVal.plain "w"))).minimumPrice = 0 ∧
    (processDoc_B (absentDocB (IdVal.plain "w"))).maximumPrice = 0 ∧
    (processDoc_B (absentDocB (IdVal.plain "w"))).perSqftCost = 0 ∧
    (processDoc_B (absentDocB (IdVal.plain "w"))).numberOfUnits = 0 ∧
    (processDoc_B (absentDocB (IdVal.plain "w"))).totalArea = "N/A" ∧
    (processDoc_B (absentDocB (IdVal.plain "w"))).projectStatus = "Unknown" ∧
    (processDoc_B (absentDocB (IdVal.plain "w"))).photoUrl = "" ∧
    (processDoc_B (absentDocB (IdVal.plain "w"))).listingUrl = "#" ∧
    (processDoc_B (absentDocB (IdVal.plain "w"))).amenities = [] ∧
    (processDoc_B (absentDocB (IdVal.plain "w"))).latitude = 0 ∧
    (processDoc_B (absentDocB (IdVal.plain "w"))).longitude = 0 ∧
    (processDoc_A (absentEnvDocA (IdVal.plain "w"))).price = "N/A" ∧
    (processDoc_A (absentEnvDocA (IdVal.plain "w"))).amenities = [] :=
  ⟨(spec_C4.1 (absentDocA (IdVal.plain "w"))).1 rfl,
   (spec_C4.1 (absentDocA (IdVal.plain "w"))).2.1 rfl,
   (spec_C4.1 (absentDocA (IdVal.plain "w"))).2.2.1 rfl,
   (spec_C4.1 (absentDocA (IdVal.plain "w"))).2.2.2.1 rfl,
   (spec_C4.1 (absentDocA (IdVal.plain "w"))).2.2.2.2.1 rfl,
   (spec_C4.1 (absentDocA (IdVal.plain "w"))).2.2.2.2.2.1 rfl,
   (spec_C4.1 (absentDocA (IdVal.plain "w"))).2.2.2.2.2.2.1 rfl,
   (spec_C4.1 (absentDocA (IdVal.plain "w"))).2.2.2.2.2.2.2.1 rfl,
   (spec_C4.1 (absentDocA (IdVal.plain "w"))).2.2.2.2.2.2.2.2.1 rfl,
   (spec_C4.1 (absentDocA (IdVal.plain "w"))).2.2.2.2.2.2.2.2.2.1 rfl,
   (spec_C4.1 (absentDocA (IdVal.plain "w"))).2.2.2.2.2.2.2.2.2.2.1 rfl,
   (spec_C4.1 (absentDocA (IdVal.plain "w"))).2.2.2.2.2.2.2.2.2.2.2.1 rfl,
   (spec_C4.1 (absentDocA (IdVal.plain "w"))).2.2.2.2.2.2.2.2.2.2.2.2.1 rfl,
   (spec_C4.1 (absentDocA (IdVal.plain "w"))).2.2.2.2.2.2.2.2.2.2.2.2.2 rfl,
   (spec_C4.2.1 (absentDocB (IdVal.plain "w"))).1 rfl,
   (spec_C4.2.1 (absentDocB (IdVal.plain "w"))).2.1 rfl,
   (spec_C4.2.1 (absentDocB (IdVal.plain "w"))).2.2.1 rfl,
   (spec_C4.2.1 (absentDocB (IdVal.plain "w"))).2.2.2.1 rfl,
   (spec_C4.2.1 (absentDocB (IdVal.plain "w"))).2.2.2.2.1 rfl,
   (spec_C4.2.1 (absentDocB (IdVal.plain "w"))).2.2.2.2.2.1 rfl,
   (spec_C4.2.1 (absentDocB (IdVal.plain "w"))).2.2.2.2.2.2.1 rfl,
   (spec_C4.2.1 (absentDocB (IdVal.plain "w"))).2.2.2.2.2.2.2.1 rfl,
   (spec_C4.2.1 (absentDocB (IdVal.plain "w"))).2.2.2.2.2.2.2.2.1 rfl,
   (spec_C4.2.1 (absentDocB (IdVal.plain "w"))).2.2.2.2.2.2.2.2.2.1 rfl,
   (spec_C4.2.1 (absentDocB (IdVal.plain "w"))).2.2.2.2.2.2.2.2.2.2.1 rfl,
   (spec_C4.2.1 (absentDocB (IdVal.plain "w"))).2.2.2.2.2.2.2.2.2.2.2.1 rfl,
   (spec_C4.2.1 (absentDocB (IdVal.plain "w"))).2.2.2.2.2.2.2.2.2.2.2.2 rfl,
   (spec_C4.1 (absentEnvDocA (IdVal.plain "w"))).2.2.1 rfl,
   (spec_C4.1 (absentEnvDocA (IdVal.plain "w"))).2.2.2.2.2.2.1 rfl⟩

/-- Claim C7: a raw `listings` document without an `amenities` field is
formatted by the part_000 handler with an empty amenity array, the tsx
view-model mapping of that formatted document also yields an empty amenity
list, and the part_002 mapping of a variant-B document without `Amenities`
yields an empty amenity list; none of the mappings fails. -/
theorem spec_C7 :
    (∀ r : RawDocA, r.amenities = none →
       Option.map FieldsA.amenities (formatProperty r).fields = some (some []) ∧
       (processDoc_A (formatProperty r)).amenities = []) ∧
    (∀ doc : DocB, doc.amenities = none →
       (processDoc_B doc).amenities = []) := by
  constructor
  · intro r h
    constructor
    · simp [formatProperty, h]
    · simp [processDoc_A, formatProperty, h]
  · intro doc h
    simp [processDoc_B, h]

/-- A concrete raw `listings` document without an `amenities` field. -/
def rawDocNoAmen : RawDocA :=
  { oid := "64a0c0ffee", title := JStr.str "Green Acres"
  , author_id := JStr.absent, meta_description := JStr.absent
  , project_description := JStr.absent, price_sqft := JStr.str "4500"
  , latitude := JStr.absent, longitude := JStr.absent
  , address := JStr.str "Sector 1", project_highlights := JStr.absent
  , rera_url := JStr.absent, rera_id := JStr.absent
  , about_project := JStr.absent, nearest_school := JStr.absent
  , nearest_bank := JStr.absent, nearest_hospital := JStr.absent
  , starting_bsp := JStr.absent, project_detail := JStr.absent
  , listing_url := JStr.absent, photo_url := JStr.absent
  , amenities := none, at_biz_dir_category := none
  , at_biz_dir_location := none, at_biz_dir_tags := none
  , scraped_at := JStr.absent }

/-- A concrete variant-B document without an `Amenities` field. -/
def docBNoAmen : DocB :=
  { _id := IdVal.plain "b1", apartmentName := JStr.str "Sky Tower"
  , location := JStr.str "Pune", minimumPrice := JVal.num 4500000
  , maximumPrice := JVal.absent, perSqftCost := JVal.absent
  , numberOfUnits := JVal.absent, totalArea := JStr.absent
  , projectStatus := JStr.absent, photoUrl := JStr.absent
  , listingUrl := JStr.absent, amenities := none
  , latitude := JVal.absent, longitude := JVal.absent }

/-- Witness for C7 at concrete documents lacking the amenities field. -/
theorem spec_C7_witness :
    (Option.map FieldsA.amenities (formatProperty rawDocNoAmen).fields =
       some (some []) ∧
     (processDoc_A (formatProperty rawDocNoAmen)).amenities = []) ∧
    (processDoc_B docBNoAmen).amenities = [] :=
  ⟨spec_C7.1 rawDocNoAmen rfl, spec_C7.2 docBNoAmen rfl⟩

/-- Claim C8: when the part_001 handler runs against an empty collection and
the driver raises no error, the response is status 200 with an empty
documents array, and both views, whose record list is then the mapping of
that empty array, render the empty-state message. -/
theorem spec_C8 :
    ∀ (d : Driver) (env : Option String) (c : Bool) (req : NextRequest),
      (getMongoClient_v1 d env c).1 = Except.ok () →
      d.connect = Except.ok () →
      d.queryErr = none →
      (GET_v1 d env c [] req).1 = ⟨200, RespBody.documents []⟩ ∧
      rendersEmptyState (([] : List DocB).map processDoc_B) = true ∧
      rendersEmptyState (([] : List DocA).map processDoc_A) = true := by
  intro d env c req h1 h2 h3
  refine ⟨?_, rfl, rfl⟩
  unfold GET_v1
  rcases hG : getMongoClient_v1 d env c with ⟨r, c1⟩
  rw [hG] at h1
  cases r with
  | error m => simp at h1
  | ok u =>
    rw [h2, h3]
    rfl

/-- Witness for C8: a concrete successful invocation over the empty
collection. -/
theorem spec_C8_witness :
    (GET_v1 okDriver (some "mongodb://localhost") false [] req0).1 =
        ⟨200, RespBody.documents []⟩ ∧
    rendersEmptyState (([] : List DocB).map processDoc_B) = true ∧
    rendersEmptyState (([] : List DocA).map processDoc_A) = true :=
  spec_C8 okDriver (some "mongodb://localhost") false req0 rfl rfl rfl

/-- The parse error the MongoDB driver raises for a connection string that
does not start with a recognized scheme, as happens for
`"undefined&ssl=false"`. -/
def mongoParseError : String :=
  "Invalid scheme, expected connection string to start with \"mongodb://\" or \"mongodb+srv://\""

/-- A driver oracle whose client construction rejects the connection string
with the scheme parse error. -/
def parseFailDriver : Driver :=
  ⟨fun _ => Except.error mongoParseError, Except.ok (), none⟩

set_option maxRecDepth 16384 in
/-- Claim C3, observed divergence in part_000: with `MONGODB_URI` absent,
`process.env.MONGODB_URI + "&ssl=false"` evaluates to the nonempty — hence
truthy — string `"undefined&ssl=false"`, so the configured-error guard never
fires; `new MongoClient` then rejects the malformed string and the 500
response carries the driver's parse message, which does not contain
"MONGODB_URI". The part_001 variant, whose `uri` is the bare environment
variable, behaves as the claim states. -/
theorem spec_C3_bug :
    uri_v0 none = "undefined&ssl=false" ∧
    (GET_v0 parseFailDriver none false [] req0).1 =
      ⟨500, RespBody.error mongoParseError⟩ ∧
    ¬ ("MONGODB_URI".data <:+: mongoParseError.data) ∧
    (GET_v1 okDriver none false [] req0).1 =
      ⟨500, RespBody.error "MONGODB_URI environment variable not configured"⟩ ∧
    ("MONGODB_URI".data <:+:
      "MONGODB_URI environment variable not configured".data) :=
  ⟨rfl, rfl, by decide, rfl, by decide⟩
